import Mathlib

/-!
Verification of the multi-category concern-tagging evaluation engine
(src/app.py) against its specification.

The engine takes a free-text input, iterates over a fixed ordered catalog of
category → question-template pairs, substitutes the text into each template,
queries an external oracle, and normalizes each raw answer into a ternary
verdict.  We embed the catalog, the per-category evaluation, the batch loop
with its progress reporting, and the top-level input guard, and prove the
spec's testable properties about them.
-/

/-- Ternary verdict.  `Present`, `Absent`, `Indeterminate` embed the Python
return values `True`, `False`, `'unable'` of `evaluate_condition`
(src/app.py lines 51-56). -/
inductive Verdict
  | Present
  | Absent
  | Indeterminate
deriving DecidableEq, Repr

/-- Hard oracle failures.  src/app.py has no handler around `chain.run`, so a
transport-level exception propagates out of the engine; we model any such
exception as the single failure mode `OracleUnavailable`. -/
inductive EngineError
  | OracleUnavailable
deriving DecidableEq, Repr

/-- Observable events of one evaluation run: an oracle invocation carrying the
full query string (src/app.py line 48, `chain.run(text=text)`), and a progress
report carrying the numerator and denominator of the fraction passed to
`progress_bar.progress((idx + 1) / total_conditions)` (line 68). -/
inductive Event
  | oracleCall (query : String)
  | progress (completed : Nat) (total : Nat)
deriving DecidableEq, Repr

/-- The oracle handle: one query string in, either a raw textual response or a
hard failure out (models `chain.run` raising or returning). -/
abbrev Oracle := String → Except EngineError String

/-- The `\x7btext\x7d` placeholder that every catalog template contains
(src/app.py lines 29-42, consumed by `PromptTemplate` with
`input_variables=["text"]`, line 47). -/
def textMarker : List Char := ("\x7btext\x7d").data

/-- First occurrence of `textMarker` in a character list: returns the part
before the marker and the part after it, or `none` when absent.  This is the
scanning primitive of Python `str.format`-style substitution. -/
def splitAtMarker : List Char → Option (List Char × List Char)
  | [] => none
  | c :: cs =>
    if textMarker.isPrefixOf (c :: cs) then
      some ([], (c :: cs).drop textMarker.length)
    else
      match splitAtMarker cs with
      | none => none
      | some (pre, suf) => some (c :: pre, suf)

/-- Replace every (non-overlapping, left-to-right) occurrence of `textMarker`
by `t`, fuel-bounded so the recursion is structural; the replacement is not
rescanned, matching Python formatting semantics. -/
def formatTemplateAux : Nat → List Char → List Char → List Char
  | 0, s, _ => s
  | fuel + 1, s, t =>
    match splitAtMarker s with
    | none => s
    | some (pre, suf) => pre ++ t ++ formatTemplateAux fuel suf t

/-- `s.length + 1` units of fuel always suffice: each replacement step consumes
at least one character of `s`. -/
def formatTemplate (s t : List Char) : List Char :=
  formatTemplateAux (s.length + 1) s t

/-- Substitute the subject text into a question template: the embedding of
`PromptTemplate(input_variables=["text"], template=prompt)` followed by
`chain.run(text=text)` (src/app.py line 47-48). -/
def substituteText (tpl t : String) : String :=
  String.mk (formatTemplate tpl.data t.data)

/-- Number of occurrences of `textMarker`, fuel-bounded like `formatTemplateAux`. -/
def countMarkerAux : Nat → List Char → Nat
  | 0, _ => 0
  | fuel + 1, s =>
    match splitAtMarker s with
    | none => 0
    | some (_, suf) => 1 + countMarkerAux fuel suf

/-- Number of occurrences of the text placeholder in a template. -/
def countMarker (s : List Char) : Nat :=
  countMarkerAux (s.length + 1) s

/-- The category catalog: the `prompts` dictionary of src/app.py lines 28-43,
as an ordered association list (Python dicts preserve insertion order, and the
engine iterates the dict in that order). -/
def prompts : List (String × String) := [
  ("anxiety",
   "Does the following text discuss feelings of worry, nervousness, unease, or express concerns about future events? Does it mention physical symptoms like rapid heartbeat, sweating, or difficulty breathing? Answer \x27True\x27 if yes, \x27False\x27 if no.\nText: \x7btext\x7d"),
  ("depression",
   "Does the following text express persistent feelings of sadness, hopelessness, loss of interest, or decreased motivation? Does it mention changes in sleep, appetite, or energy levels? Answer \x27True\x27 if yes, \x27False\x27 if no.\nText: \x7btext\x7d"),
  ("overthinking",
   "Does the following text indicate excessive analysis, rumination, or getting stuck in thought loops? Does it show signs of overanalyzing situations or inability to make decisions due to excessive thinking? Answer \x27True\x27 if yes, \x27False\x27 if no.\nText: \x7btext\x7d"),
  ("stress",
   "Does the following text describe feeling overwhelmed, under pressure, or experiencing difficulty coping with demands? Does it mention physical or emotional tension? Answer \x27True\x27 if yes, \x27False\x27 if no.\nText: \x7btext\x7d"),
  ("negative_thinking",
   "Does the following text show patterns of pessimistic thoughts, self-criticism, or focusing primarily on negative aspects of situations? Answer \x27True\x27 if yes, \x27False\x27 if no.\nText: \x7btext\x7d"),
  ("loneliness",
   "Does the following text express feelings of isolation, disconnection from others, or a desire for more meaningful relationships? Does it discuss social isolation or difficulty connecting with others? Answer \x27True\x27 if yes, \x27False\x27 if no.\nText: \x7btext\x7d"),
  ("self_improvement",
   "Does the following text discuss personal growth, development goals, or efforts to better oneself? Does it mention strategies or plans for improving mental health, habits, or life circumstances? Answer \x27True\x27 if yes, \x27False\x27 if no.\nText: \x7btext\x7d"),
  ("anger",
   "Does the following text express feelings of anger, frustration, irritation, or hostility? Does it mention losing control, feeling enraged, or reacting intensely to situations? Respond with \x27True\x27 if yes, \x27False\x27 if no.\nText: \x7btext\x7d"),
  ("grief",
   "Does the following text express feelings of sadness, loss, mourning, or dealing with major life changes such as the death of a loved one? Does it mention emotions like yearning, longing, or struggling to cope with the absence of someone or something important? Answer \x27True\x27 if yes, \x27False\x27 if no.\nText: \x7btext\x7d"),
  ("sleep",
   "Does the following text mention difficulties with sleep patterns, insomnia, or unusual sleep behaviors? Does it discuss changes in sleep quality or quantity? Answer \x27True\x27 if yes, \x27False\x27 if no.\nText: \x7btext\x7d"),
  ("ocd",
   "Does the following text describe recurring thoughts, compulsive behaviors, or strict routines that feel necessary? Does it mention distress about order, cleanliness, or repeated checking? Answer \x27True\x27 if yes, \x27False\x27 if no.\nText: \x7btext\x7d"),
  ("sexual_dysfunction",
   "Does the following text discuss concerns about sexual health, intimacy issues, or changes in sexual function? Does it mention distress about sexual performance or satisfaction? Answer \x27True\x27 if yes, \x27False\x27 if no.\nText: \x7btext\x7d"),
  ("bipolar",
   "Does the following text describe significant mood swings, periods of unusually high energy alternating with low periods, or dramatic changes in behavior and thinking? Answer \x27True\x27 if yes, \x27False\x27 if no.\nText: \x7btext\x7d"),
  ("addiction",
   "Does the following text discuss struggles with substance use, compulsive behaviors, or difficulty controlling specific activities? Does it mention impact on daily life due to these behaviors? Answer \x27True\x27 if yes, \x27False\x27 if no.\nText: \x7btext\x7d")
]

/-- The whitespace characters removed by Python `str.strip()` (space, tab,
newline, carriage return, vertical tab, form feed; we model the ASCII set). -/
def py_whitespace (c : Char) : Bool :=
  c = ' ' || c = '\t' || c = '\n' || c = '\r' || c = '\x0b' || c = '\x0c'

/-- Python `str.strip()`: drop leading and trailing whitespace. -/
def py_strip (s : String) : String :=
  String.mk (((s.data.dropWhile py_whitespace).reverse.dropWhile py_whitespace).reverse)

/-- Python `str.lower()` on the ASCII range (`Char.toLower` lowercases
`A`-`Z`; the tokens being compared are ASCII). -/
def py_lower (s : String) : String :=
  String.mk (s.data.map Char.toLower)

/-- Answer normalization, src/app.py lines 50-56:
`response.strip().lower()`, then `'true'` ↦ `True` (`Present`),
`'false'` ↦ `False` (`Absent`), anything else ↦ `'unable'`
(`Indeterminate`). -/
def normalize_response (response : String) : Verdict :=
  let r := py_lower (py_strip response)
  if r = "true" then Verdict.Present
  else if r = "false" then Verdict.Absent
  else Verdict.Indeterminate

/-- One category evaluation, src/app.py lines 45-56: look the template up in
`prompts`, build the full query by substituting the text, run the oracle,
normalize the answer.  The trace records the oracle invocation.  `getD ""`
is only for totality: every call site passes a key of `prompts`, where the
lookup succeeds (Python would raise `KeyError` otherwise). -/
def evaluate_condition (text condition : String) (llm : Oracle) :
    List Event × Except EngineError Verdict :=
  let template := (prompts.lookup condition).getD ""
  let query := substituteText template text
  ([Event.oracleCall query],
   match llm query with
   | Except.error e => Except.error e
   | Except.ok response => Except.ok (normalize_response response))

/-- The batch loop body of `evaluate_report`, src/app.py lines 65-68:
`for idx, condition in enumerate(prompts): evaluation_results[condition] =
evaluate_condition(...); progress_bar.progress((idx + 1) / total_conditions)`.
An unhandled oracle failure aborts the loop and discards the verdicts
accumulated so far (the local dict is lost when the exception propagates);
the trace keeps the events that had already happened. -/
def evalLoop (text : String) (llm : Oracle) (total : Nat) :
    List String → Nat → List Event × Except EngineError (List (String × Verdict))
  | [], _ => ([], Except.ok [])
  | condition :: rest, idx =>
    match evaluate_condition text condition llm with
    | (evs, Except.error e) => (evs, Except.error e)
    | (evs, Except.ok v) =>
      match evalLoop text llm total rest (idx + 1) with
      | (evs2, Except.error e) =>
          (evs ++ Event.progress (idx + 1) total :: evs2, Except.error e)
      | (evs2, Except.ok results) =>
          (evs ++ Event.progress (idx + 1) total :: evs2,
           Except.ok ((condition, v) :: results))

/-- The batch evaluation, src/app.py lines 58-70: iterate the catalog keys in
order, producing the ordered identifier → verdict map and the event trace. -/
def evaluate_report (report_text : String) (llm : Oracle) :
    List Event × Except EngineError (List (String × Verdict)) :=
  evalLoop report_text llm prompts.length (prompts.map Prod.fst) 0

/-- Modelled from the spec: the continue-on-error evaluation mode described in
section 4.2 / section 7 (`OracleUnavailable` "optionally recoverable via a
continue-on-error configuration that substitutes Indeterminate for that
category and proceeds").  src/app.py exposes no such configuration; this
definition follows the spec words for the missing mode: every category is
evaluated, a failing oracle call yields `Indeterminate` for that category,
a successful one is normalized as usual. -/
def evaluate_report_continue (text : String) (llm : Oracle) :
    List (String × Verdict) :=
  prompts.map fun p =>
    (p.1,
     match llm (substituteText p.2 text) with
     | Except.error _ => Verdict.Indeterminate
     | Except.ok response => normalize_response response)

/-- Modelled from the spec: the aggregation/partition helper of section 4.2
("partition category identifiers into three disjoint, order-preserving lists —
Present, Absent, Indeterminate").  src/app.py builds only the Present
component (line 123, `[k ... for k, v in results.items() if v == True]`);
the two remaining components follow the same filter shape. -/
def partition_result (results : List (String × Verdict)) :
    List String × List String × List String :=
  ((results.filter fun p => p.2 == Verdict.Present).map Prod.fst,
   (results.filter fun p => p.2 == Verdict.Absent).map Prod.fst,
   (results.filter fun p => p.2 == Verdict.Indeterminate).map Prod.fst)

/-- Display label, src/app.py line 123: `k.replace("_", " ").title()`.
Replacing the single character `_` by a space is a character map; `title()`
on the catalog's lowercase identifiers capitalizes each space-separated
word. -/
def humanize (k : String) : String :=
  String.intercalate " "
    (((String.mk (k.data.map fun c => if c = '_' then ' ' else c)).splitOn " ").map
      String.capitalize)

/-- Outcome of one press of the Analyze button: either the completed analysis
(carrying the humanized list of detected concerns, src/app.py line 123) or
one of the two warning messages (lines 138 and 140). -/
inductive MainOutcome
  | completed (detected : List String)
  | warned (message : String)
deriving DecidableEq, Repr

/-- The Analyze flow of `main`, src/app.py lines 118-140: a non-empty check
(`if user_input:`), then the inclusive 1000-character guard
(`if len(user_input) <= 1000:`), then the batch evaluation and the
Present-filtered, humanized detection list.  An unhandled oracle failure
propagates out.  The trace records the oracle invocations and progress
events that happened (none on a rejected input). -/
def main_analyze (user_input : String) (llm : Oracle) :
    List Event × Except EngineError MainOutcome :=
  if user_input ≠ "" then
    if user_input.length ≤ 1000 then
      match evaluate_report user_input llm with
      | (evs, Except.error e) => (evs, Except.error e)
      | (evs, Except.ok results) =>
          (evs, Except.ok (MainOutcome.completed
            ((results.filter fun p => p.2 == Verdict.Present).map fun p => humanize p.1)))
    else ([], Except.ok (MainOutcome.warned "Please enter less than 1000 words."))
  else ([], Except.ok (MainOutcome.warned "Please enter some text to analyze."))

/-- A scripted oracle that always answers the token `True`. -/
def okOracle : Oracle := fun _ => Except.ok "True"

/-- A scripted oracle whose every call fails at the transport level. -/
def failOracle : Oracle := fun _ => Except.error EngineError.OracleUnavailable

set_option maxRecDepth 8000

/-! ### Catalog facts -/

/-- Looking a catalog entry up by its key returns its template: the catalog's
keys are unique. -/
lemma prompts_lookup_self : ∀ p ∈ prompts, prompts.lookup p.1 = some p.2 := by
  decide

/-- The catalog's category identifiers are pairwise distinct. -/
lemma prompts_keys_nodup : (prompts.map Prod.fst).Nodup := by decide

/-! ### Substitution helpers -/

lemma formatTemplateAux_nil (fuel : Nat) (t : List Char) :
    formatTemplateAux fuel [] t = [] := by
  cases fuel <;> rfl

/-- A template whose single placeholder occurrence is terminal substitutes to
its prefix followed by the raw subject text. -/
lemma substituteText_pre (tpl t : String) (pre : List Char)
    (h : splitAtMarker tpl.data = some (pre, [])) :
    substituteText tpl t = String.mk (pre ++ t.data) := by
  unfold substituteText formatTemplate
  simp only [formatTemplateAux, h, formatTemplateAux_nil, List.append_nil]

/-- Every catalog template contains the placeholder exactly once, terminally. -/
lemma prompts_template_shape : ∀ q ∈ prompts, countMarker q.2.data = 1 ∧
    splitAtMarker q.2.data =
      some (q.2.data.take (q.2.data.length - textMarker.length), []) ∧
    q.2.data = q.2.data.take (q.2.data.length - textMarker.length) ++ textMarker := by
  decide

/-! ### Batch-loop helpers -/

/-- Exact behavior of the batch loop under a never-failing oracle, for any
catalog fragment whose entries look up correctly: the trace interleaves, per
category in order, the oracle invocation then the progress event with the
incremented running count, and the result pairs every category key with the
normalized oracle answer to its substituted query. -/
lemma evalLoop_total_spec (text : String) (f : String → String) (total : Nat) :
    ∀ (l : List (String × String)) (idx : Nat),
      (∀ p ∈ l, prompts.lookup p.1 = some p.2) →
      evalLoop text (fun q => Except.ok (f q)) total (l.map Prod.fst) idx =
        ((l.enumFrom idx).flatMap fun p =>
            [Event.oracleCall (substituteText p.2.2 text),
             Event.progress (p.1 + 1) total],
         Except.ok (l.map fun p =>
            (p.1, normalize_response (f (substituteText p.2 text))))) := by
  intro l
  induction l with
  | nil => intro idx h; rfl
  | cons a rest ih =>
    intro idx h
    have ha : prompts.lookup a.1 = some a.2 := h a (List.mem_cons_self a rest)
    have hrest : ∀ p ∈ rest, prompts.lookup p.1 = some p.2 :=
      fun p hp => h p (List.mem_cons_of_mem a hp)
    simp [evalLoop, evaluate_condition, ha, ih (idx + 1) hrest, List.enumFrom]

/-- Fail-fast propagation: if the oracle succeeds on every category before
some category and hard-fails on that category's query, the loop aborts with
that error — in particular no verdict list is returned. -/
lemma evalLoop_error_spec (text : String) (llm : Oracle) (total : Nat)
    (e : EngineError) :
    ∀ (la : List (String × String)) (c tpl : String)
      (lb : List (String × String)) (idx : Nat),
      (∀ p ∈ la ++ (c, tpl) :: lb, prompts.lookup p.1 = some p.2) →
      (∀ p ∈ la, ∃ r, llm (substituteText p.2 text) = Except.ok r) →
      llm (substituteText tpl text) = Except.error e →
      (evalLoop text llm total ((la ++ (c, tpl) :: lb).map Prod.fst) idx).2 =
        Except.error e := by
  intro la
  induction la with
  | nil =>
    intro c tpl lb idx hlook _ herr
    have hc : prompts.lookup c = some tpl := hlook (c, tpl) (by simp)
    simp [evalLoop, evaluate_condition, hc, herr]
  | cons a rest ih =>
    intro c tpl lb idx hlook hok herr
    have ha : prompts.lookup a.1 = some a.2 := hlook a (by simp)
    obtain ⟨r, hr⟩ := hok a (List.mem_cons_self a rest)
    have hlook2 : ∀ p ∈ rest ++ (c, tpl) :: lb, prompts.lookup p.1 = some p.2 :=
      fun p hp => hlook p (by simp at hp ⊢; tauto)
    have hok2 : ∀ p ∈ rest, ∃ s, llm (substituteText p.2 text) = Except.ok s :=
      fun p hp => hok p (List.mem_cons_of_mem a hp)
    have ihr := ih c tpl lb (idx + 1) hlook2 hok2 herr
    simp only [List.cons_append, List.map_cons, evalLoop, evaluate_condition, ha,
      Option.getD_some, hr]
    rcases hrec : evalLoop text llm total ((rest ++ (c, tpl) :: lb).map Prod.fst) (idx + 1)
      with ⟨evs2, res2⟩
    rw [hrec] at ihr
    simp at ihr
    subst ihr
    simp

/-! ### Partition helpers -/

/-- In an association list with distinct keys, a key determines its value. -/
lemma snd_eq_of_fst_nodup {l : List (String × Verdict)}
    (h : (l.map Prod.fst).Nodup) {k : String} {v w : Verdict}
    (hv : (k, v) ∈ l) (hw : (k, w) ∈ l) : v = w := by
  induction l with
  | nil => cases hv
  | cons a rest ih =>
    rw [List.map_cons, List.nodup_cons] at h
    rcases List.mem_cons.mp hv with hv1 | hv2
    · rcases List.mem_cons.mp hw with hw1 | hw2
      · rw [← hv1] at hw1
        exact (Prod.mk.injEq _ _ _ _ ▸ hw1.symm).2
      · exact absurd (List.mem_map_of_mem Prod.fst hw2) (by rw [← hv1] at h; exact h.1)
    · rcases List.mem_cons.mp hw with hw1 | hw2
      · exact absurd (List.mem_map_of_mem Prod.fst hv2) (by rw [← hw1] at h; exact h.1)
      · exact ih h.2 hv2 hw2

/-- Mapping a key-preserving pairing over a list preserves the key list. -/
lemma map_fst_map_pair {γ : Type} (l : List (String × String))
    (g : String × String → γ) :
    ((l.map fun p => (p.1, g p)).map Prod.fst) = l.map Prod.fst := by
  induction l with
  | nil => rfl
  | cons a rest ih => simp [ih]


/-- Membership in one component of the verdict partition is membership of the
corresponding pair in the result list. -/
lemma mem_filter_verdict (results : List (String × Verdict)) (v : Verdict)
    (k : String) :
    (k ∈ (results.filter fun p => p.2 == v).map Prod.fst) ↔ (k, v) ∈ results := by
  simp only [List.mem_map, List.mem_filter, beq_iff_eq]
  constructor
  · rintro ⟨⟨k2, v2⟩, ⟨hmem, hv⟩, hk⟩
    simp only at hv hk
    rw [hk, hv] at hmem
    exact hmem
  · intro hm
    exact ⟨(k, v), ⟨hm, rfl⟩, rfl⟩

/-- The three components of the partition together are a permutation of the
identifier list. -/
lemma partition_perm (results : List (String × Verdict)) :
    List.Perm
      ((partition_result results).1 ++ (partition_result results).2.1 ++
        (partition_result results).2.2)
      (results.map Prod.fst) := by
  induction results with
  | nil => rfl
  | cons a rest ih =>
    rcases a with ⟨k, v⟩
    cases v
    · simpa [partition_result, List.filter_cons] using ih.cons k
    · refine List.Perm.trans ?_ (ih.cons k)
      simp [partition_result, List.filter_cons]
    · refine List.Perm.trans ?_ (ih.cons k)
      simp [partition_result, List.filter_cons]
      rw [← List.append_assoc, ← List.append_assoc]
      exact List.perm_middle

/-! ### Claim theorems -/

/-- C1: for every input text within the length bound (non-empty, at most 1000
characters) and every oracle that answers every query, `evaluate_report`
returns a result map containing exactly one verdict per catalog category,
keyed in catalog order — its key list equals the catalog's key list, which has
no duplicates, hence no omissions and no extras. -/
theorem evaluate_report_one_verdict_per_category (report_text : String)
    (llm : Oracle) (f : String → String)
    (_hne : report_text ≠ "") (_hlen : report_text.length ≤ 1000)
    (hf : ∀ q, llm q = Except.ok (f q)) :
    ∃ results, (evaluate_report report_text llm).2 = Except.ok results ∧
      results.map Prod.fst = prompts.map Prod.fst ∧
      (prompts.map Prod.fst).Nodup := by
  have hllm : llm = fun q => Except.ok (f q) := funext hf
  subst hllm
  refine ⟨prompts.map (fun p =>
      (p.1, normalize_response (f (substituteText p.2 report_text)))),
    ?_, ?_, prompts_keys_nodup⟩
  · unfold evaluate_report
    rw [evalLoop_total_spec report_text f prompts.length prompts 0 prompts_lookup_self]
  · exact map_fst_map_pair prompts _

/-- Witness for C1 at a concrete input and a concrete scripted oracle. -/
theorem evaluate_report_one_verdict_per_category_witness :
    ∃ results, (evaluate_report "hello" okOracle).2 = Except.ok results ∧
      results.map Prod.fst = prompts.map Prod.fst ∧
      (prompts.map Prod.fst).Nodup :=
  evaluate_report_one_verdict_per_category "hello" okOracle (fun _ => "True")
    (by decide) (by decide) (fun _ => rfl)

/-- C2: normalization strips surrounding whitespace and lowercases the oracle
response; the verdict is `Present` exactly when the normalized string is
`"true"`, `Absent` exactly when it is `"false"`, and `Indeterminate` in every
other case (including the empty string).  `normalize_response` is a total
function, so normalization never raises. -/
theorem normalize_response_classification (response : String) :
    (normalize_response response = Verdict.Present ↔
      py_lower (py_strip response) = "true") ∧
    (normalize_response response = Verdict.Absent ↔
      py_lower (py_strip response) = "false") ∧
    (normalize_response response = Verdict.Indeterminate ↔
      (py_lower (py_strip response) ≠ "true" ∧
        py_lower (py_strip response) ≠ "false")) := by
  unfold normalize_response
  by_cases h1 : py_lower (py_strip response) = "true"
  · simp [h1]
  · by_cases h2 : py_lower (py_strip response) = "false" <;> simp [h1, h2]

/-- C3: under an oracle that answers every query, the full event trace of a
run is, per catalog entry in catalog order, the oracle invocation followed by
the progress report — so the progress callback fires exactly
`prompts.length` times, its completed count is `i + 1` for the `i`-th entry
(strictly increasing from 1 to the total), and the `i`-th progress report
comes right after the `i`-th category's oracle call. -/
theorem evaluate_report_progress_trace (report_text : String) (llm : Oracle)
    (f : String → String) (hf : ∀ q, llm q = Except.ok (f q)) :
    (evaluate_report report_text llm).1 =
      prompts.enum.flatMap fun p =>
        [Event.oracleCall (substituteText p.2.2 report_text),
         Event.progress (p.1 + 1) prompts.length] := by
  have hllm : llm = fun q => Except.ok (f q) := funext hf
  subst hllm
  unfold evaluate_report
  rw [evalLoop_total_spec report_text f prompts.length prompts 0 prompts_lookup_self]
  rfl

/-- Witness for C3 at a concrete input and a concrete scripted oracle. -/
theorem evaluate_report_progress_trace_witness :
    (evaluate_report "hi" okOracle).1 =
      prompts.enum.flatMap fun p =>
        [Event.oracleCall (substituteText p.2.2 "hi"),
         Event.progress (p.1 + 1) prompts.length] :=
  evaluate_report_progress_trace "hi" okOracle (fun _ => "True") (fun _ => rfl)

/-- C4: an empty input, or an input longer than the 1000-character bound, is
rejected with a warning before any work happens: the event trace is empty —
zero oracle invocations, zero progress reports — and the outcome is a
`warned` message, not a completed analysis. -/
theorem invalid_input_rejected_before_oracle (user_input : String) (llm : Oracle)
    (h : user_input = "" ∨ 1000 < user_input.length) :
    (main_analyze user_input llm).1 = [] ∧
    ∃ msg, (main_analyze user_input llm).2 =
      Except.ok (MainOutcome.warned msg) := by
  rcases h with h | h
  · subst h
    exact ⟨rfl, "Please enter some text to analyze.", rfl⟩
  · have hne : user_input ≠ "" := by
      intro he
      rw [he] at h
      exact absurd h (by decide)
    unfold main_analyze
    rw [if_pos hne, if_neg (by omega)]
    exact ⟨rfl, "Please enter less than 1000 words.", rfl⟩

/-- Witness for C4 at the empty input and at a 1001-character input. -/
theorem invalid_input_rejected_before_oracle_witness :
    ((main_analyze "" okOracle).1 = [] ∧
      ∃ msg, (main_analyze "" okOracle).2 =
        Except.ok (MainOutcome.warned msg)) ∧
    ((main_analyze (String.mk (List.replicate 1001 'a')) okOracle).1 = [] ∧
      ∃ msg, (main_analyze (String.mk (List.replicate 1001 'a')) okOracle).2 =
        Except.ok (MainOutcome.warned msg)) :=
  ⟨invalid_input_rejected_before_oracle "" okOracle (Or.inl rfl),
   invalid_input_rejected_before_oracle (String.mk (List.replicate 1001 'a'))
     okOracle (Or.inr (by simp [String.length]))⟩

/-- C5: fail-fast (the code's only mode): when the oracle answers the
categories before position `k` but hard-fails on the `k`-th category's query,
the whole batch aborts with that error — the caller sees `Except.error`, so
the verdicts recorded for the earlier categories are not returned as any
final value. -/
theorem oracle_failure_fail_fast_aborts (text : String) (llm : Oracle)
    (e : EngineError) (la lb : List (String × String)) (c tpl : String)
    (hsplit : prompts = la ++ (c, tpl) :: lb)
    (hok : ∀ p ∈ la, ∃ r, llm (substituteText p.2 text) = Except.ok r)
    (herr : llm (substituteText tpl text) = Except.error e) :
    (evaluate_report text llm).2 = Except.error e := by
  have hlook : ∀ p ∈ la ++ (c, tpl) :: lb, prompts.lookup p.1 = some p.2 :=
    fun p hp => prompts_lookup_self p (by rw [hsplit]; exact hp)
  unfold evaluate_report
  rw [hsplit]
  exact evalLoop_error_spec text llm (la ++ (c, tpl) :: lb).length e la c tpl lb 0
    hlook hok herr

/-- Witness for C5: the scripted all-failing oracle aborts the batch on the
first category. -/
theorem oracle_failure_fail_fast_aborts_witness :
    (evaluate_report "t" failOracle).2 =
      Except.error EngineError.OracleUnavailable :=
  oracle_failure_fail_fast_aborts "t" failOracle EngineError.OracleUnavailable
    [] prompts.tail "anxiety" (prompts.headD ("", "")).2
    rfl (fun p hp => absurd hp (List.not_mem_nil p)) rfl

/-- C6, counterexample: src/app.py exposes no continue-on-error configuration;
`evaluate_report` is the engine's only behavior, and under an oracle that
fails it aborts with the error — it does not complete with the batch the
claimed mode would produce (every category `Indeterminate`). -/
theorem continue_on_error_not_in_code :
    (evaluate_report "sample" failOracle).2 =
      Except.error EngineError.OracleUnavailable ∧
    (evaluate_report "sample" failOracle).2 ≠
      Except.ok (prompts.map fun p => (p.1, Verdict.Indeterminate)) := by
  have h : (evaluate_report "sample" failOracle).2 =
      Except.error EngineError.OracleUnavailable := rfl
  refine ⟨h, ?_⟩
  rw [h]
  simp

/-- C6, amended: the code has no continue-on-error option — an oracle failure
always aborts the batch (see the counterexample).  The continue-on-error mode
the spec prescribes, modelled from the spec as `evaluate_report_continue`,
behaves as the claim describes: the batch completes with one verdict per
catalog category in order, the failing category's verdict is `Indeterminate`,
and every category whose oracle call succeeds gets the same normalized verdict
the code's `evaluate_condition` produces. -/
theorem continue_on_error_spec_model (text : String) (llm : Oracle)
    (c tpl : String) (hmem : (c, tpl) ∈ prompts)
    (herr : llm (substituteText tpl text) =
      Except.error EngineError.OracleUnavailable) :
    (evaluate_report_continue text llm).map Prod.fst = prompts.map Prod.fst ∧
    (c, Verdict.Indeterminate) ∈ evaluate_report_continue text llm ∧
    ∀ c2 tpl2 v, (c2, tpl2) ∈ prompts →
      (evaluate_condition text c2 llm).2 = Except.ok v →
      (c2, v) ∈ evaluate_report_continue text llm := by
  refine ⟨map_fst_map_pair prompts _, ?_, ?_⟩
  · exact List.mem_map.mpr ⟨(c, tpl), hmem, by simp [herr]⟩
  · intro c2 tpl2 v hmem2 hv
    have hl : prompts.lookup c2 = some tpl2 := prompts_lookup_self (c2, tpl2) hmem2
    simp only [evaluate_condition, hl, Option.getD_some] at hv
    refine List.mem_map.mpr ⟨(c2, tpl2), hmem2, ?_⟩
    rcases hllm : llm (substituteText tpl2 text) with e | r
    · rw [hllm] at hv
      cases hv
    · rw [hllm] at hv
      simp only [Except.ok.injEq] at hv
      simp [hllm, hv]

/-- Witness for the amended C6 at a concrete input with the all-failing
oracle. -/
theorem continue_on_error_spec_model_witness :
    (evaluate_report_continue "t" failOracle).map Prod.fst =
      prompts.map Prod.fst ∧
    ("anxiety", Verdict.Indeterminate) ∈ evaluate_report_continue "t" failOracle ∧
    ∀ c2 tpl2 v, (c2, tpl2) ∈ prompts →
      (evaluate_condition "t" c2 failOracle).2 = Except.ok v →
      (c2, v) ∈ evaluate_report_continue "t" failOracle :=
  continue_on_error_spec_model "t" failOracle "anxiety" (prompts.headD ("", "")).2
    (by decide) rfl

/-- C7: every catalog template contains the text placeholder exactly once (at
its end), and the query the oracle receives — as recorded in
`evaluate_condition`'s trace — is exactly the template with the raw input text
substituted at that placeholder: the template's prefix followed verbatim by
the input text, with no truncation, escaping, or other transformation. -/
theorem oracle_receives_verbatim_text (c tpl t : String) (llm : Oracle)
    (hmem : (c, tpl) ∈ prompts) :
    countMarker tpl.data = 1 ∧
    tpl.data = tpl.data.take (tpl.data.length - textMarker.length) ++ textMarker ∧
    substituteText tpl t =
      String.mk (tpl.data.take (tpl.data.length - textMarker.length) ++ t.data) ∧
    (evaluate_condition t c llm).1 = [Event.oracleCall (substituteText tpl t)] := by
  obtain ⟨h1, h2, h3⟩ := prompts_template_shape (c, tpl) hmem
  have hl : prompts.lookup c = some tpl := prompts_lookup_self (c, tpl) hmem
  exact ⟨h1, h3, substituteText_pre tpl t _ h2,
    by simp [evaluate_condition, hl]⟩

/-- Witness for C7 at the first catalog entry and a concrete input text. -/
theorem oracle_receives_verbatim_text_witness :
    countMarker ((prompts.headD ("", "")).2).data = 1 ∧
    ((prompts.headD ("", "")).2).data =
      ((prompts.headD ("", "")).2).data.take
        (((prompts.headD ("", "")).2).data.length - textMarker.length) ++ textMarker ∧
    substituteText (prompts.headD ("", "")).2 "hello" =
      String.mk (((prompts.headD ("", "")).2).data.take
        (((prompts.headD ("", "")).2).data.length - textMarker.length) ++
        ("hello").data) ∧
    (evaluate_condition "hello" "anxiety" okOracle).1 =
      [Event.oracleCall (substituteText (prompts.headD ("", "")).2 "hello")] :=
  oracle_receives_verbatim_text "anxiety" (prompts.headD ("", "")).2 "hello"
    okOracle (by decide)

/-- C8: the partition helper is a pure total function and, on every completed
result map with distinct keys, splits the category identifiers into three
pairwise-disjoint, order-preserving (sublists of the key list) components —
Present, Absent, Indeterminate — whose concatenation is a permutation of the
full identifier list (no omission, no duplication). -/
theorem partition_result_spec (results : List (String × Verdict))
    (hnodup : (results.map Prod.fst).Nodup) :
    List.Perm ((partition_result results).1 ++ (partition_result results).2.1 ++
        (partition_result results).2.2) (results.map Prod.fst) ∧
    ((partition_result results).1.Sublist (results.map Prod.fst) ∧
     (partition_result results).2.1.Sublist (results.map Prod.fst) ∧
     (partition_result results).2.2.Sublist (results.map Prod.fst)) ∧
    ((partition_result results).1.Disjoint (partition_result results).2.1 ∧
     (partition_result results).1.Disjoint (partition_result results).2.2 ∧
     (partition_result results).2.1.Disjoint (partition_result results).2.2) := by
  refine ⟨partition_perm results, ⟨?_, ?_, ?_⟩, ?_, ?_, ?_⟩
  · exact (List.filter_sublist results).map Prod.fst
  · exact (List.filter_sublist results).map Prod.fst
  · exact (List.filter_sublist results).map Prod.fst
  · intro k hkP hkA
    have h1 := (mem_filter_verdict results Verdict.Present k).mp hkP
    have h2 := (mem_filter_verdict results Verdict.Absent k).mp hkA
    exact absurd (snd_eq_of_fst_nodup hnodup h1 h2) (by decide)
  · intro k hkP hkI
    have h1 := (mem_filter_verdict results Verdict.Present k).mp hkP
    have h2 := (mem_filter_verdict results Verdict.Indeterminate k).mp hkI
    exact absurd (snd_eq_of_fst_nodup hnodup h1 h2) (by decide)
  · intro k hkA hkI
    have h1 := (mem_filter_verdict results Verdict.Absent k).mp hkA
    have h2 := (mem_filter_verdict results Verdict.Indeterminate k).mp hkI
    exact absurd (snd_eq_of_fst_nodup hnodup h1 h2) (by decide)

/-- Witness for C8 at the spec's worked example: `A` Present, `B`
Indeterminate. -/
theorem partition_result_spec_witness :
    List.Perm ((partition_result [("A", Verdict.Present), ("B", Verdict.Indeterminate)]).1 ++
        (partition_result [("A", Verdict.Present), ("B", Verdict.Indeterminate)]).2.1 ++
        (partition_result [("A", Verdict.Present), ("B", Verdict.Indeterminate)]).2.2)
      ([("A", Verdict.Present), ("B", Verdict.Indeterminate)].map Prod.fst) ∧
    ((partition_result [("A", Verdict.Present), ("B", Verdict.Indeterminate)]).1.Sublist
        ([("A", Verdict.Present), ("B", Verdict.Indeterminate)].map Prod.fst) ∧
     (partition_result [("A", Verdict.Present), ("B", Verdict.Indeterminate)]).2.1.Sublist
        ([("A", Verdict.Present), ("B", Verdict.Indeterminate)].map Prod.fst) ∧
     (partition_result [("A", Verdict.Present), ("B", Verdict.Indeterminate)]).2.2.Sublist
        ([("A", Verdict.Present), ("B", Verdict.Indeterminate)].map Prod.fst)) ∧
    ((partition_result [("A", Verdict.Present), ("B", Verdict.Indeterminate)]).1.Disjoint
        (partition_result [("A", Verdict.Present), ("B", Verdict.Indeterminate)]).2.1 ∧
     (partition_result [("A", Verdict.Present), ("B", Verdict.Indeterminate)]).1.Disjoint
        (partition_result [("A", Verdict.Present), ("B", Verdict.Indeterminate)]).2.2 ∧
     (partition_result [("A", Verdict.Present), ("B", Verdict.Indeterminate)]).2.1.Disjoint
        (partition_result [("A", Verdict.Present), ("B", Verdict.Indeterminate)]).2.2) :=
  partition_result_spec [("A", Verdict.Present), ("B", Verdict.Indeterminate)]
    (by decide)

/-- C10: the input guard counts characters and its bound is inclusive: under
an oracle that answers every query, a 1000-character input is analyzed (the
outcome is `completed`), while a 1001-character input is rejected — with the
user-facing message that misdescribes the limit as "less than 1000 words". -/
theorem length_guard_chars_inclusive (user_input : String) (llm : Oracle)
    (f : String → String) (hf : ∀ q, llm q = Except.ok (f q)) :
    (user_input.length = 1000 →
      ∃ detected, (main_analyze user_input llm).2 =
        Except.ok (MainOutcome.completed detected)) ∧
    (user_input.length = 1001 →
      (main_analyze user_input llm).2 =
        Except.ok (MainOutcome.warned "Please enter less than 1000 words.")) := by
  have hllm : llm = fun q => Except.ok (f q) := funext hf
  subst hllm
  constructor
  · intro hlen
    have hne : user_input ≠ "" := by
      intro he
      rw [he] at hlen
      exact absurd hlen (by decide)
    unfold main_analyze
    rw [if_pos hne, if_pos (by omega)]
    unfold evaluate_report
    rw [evalLoop_total_spec user_input f prompts.length prompts 0 prompts_lookup_self]
    exact ⟨_, rfl⟩
  · intro hlen
    have hne : user_input ≠ "" := by
      intro he
      rw [he] at hlen
      exact absurd hlen (by decide)
    unfold main_analyze
    rw [if_pos hne, if_neg (by omega)]

/-- Witness for C10 at concrete inputs of exactly 1000 and 1001 characters. -/
theorem length_guard_chars_inclusive_witness :
    (∃ detected,
      (main_analyze (String.mk (List.replicate 1000 'a')) okOracle).2 =
        Except.ok (MainOutcome.completed detected)) ∧
    (main_analyze (String.mk (List.replicate 1001 'a')) okOracle).2 =
      Except.ok (MainOutcome.warned "Please enter less than 1000 words.") :=
  ⟨(length_guard_chars_inclusive (String.mk (List.replicate 1000 'a')) okOracle
      (fun _ => "True") (fun _ => rfl)).1 (by simp [String.length]),
   (length_guard_chars_inclusive (String.mk (List.replicate 1001 'a')) okOracle
      (fun _ => "True") (fun _ => rfl)).2 (by simp [String.length])⟩
